import Mathlib

/-!
Verification of `attendance_export.py` (Canvas Roll Call Attendance Export).

Part 1: calendar model. Python's `datetime` dates are modelled by their
proleptic-Gregorian ordinal (`date.toordinal()`: 0001-01-01 ↦ 1), so that
`datetime - timedelta(days=k)` is ordinal subtraction and
`datetime.weekday()` is `(ordinal + 6) % 7` (Monday = 0).
`strftime("%m/%d/%Y")` is modelled by converting the ordinal back to a
civil date (CPython's `_ord2ymd` algorithm) and zero-padding the fields.
-/

/-- Gregorian leap-year test, as in CPython's `datetime` module. -/
def isLeap (y : Nat) : Bool :=
  y % 4 == 0 && (y % 100 != 0 || y % 400 == 0)

/-- Number of days in month `m` (1–12) of year `y`; 0 for out-of-range months. -/
def daysInMonth (y m : Nat) : Nat :=
  match m with
  | 1 => 31
  | 2 => if isLeap y then 29 else 28
  | 3 => 31
  | 4 => 30
  | 5 => 31
  | 6 => 30
  | 7 => 31
  | 8 => 31
  | 9 => 30
  | 10 => 31
  | 11 => 30
  | 12 => 31
  | _ => 0

/-- Days in year `y` strictly before month `m`. -/
def daysBeforeMonth (y : Nat) : Nat → Nat
  | 0 => 0
  | m + 1 => daysBeforeMonth y m + daysInMonth y m

/-- Days strictly before January 1 of year `y` (proleptic Gregorian). -/
def daysBeforeYear (y : Nat) : Nat :=
  (y - 1) * 365 + (y - 1) / 4 - (y - 1) / 100 + (y - 1) / 400

/-- Python's `date(y, m, d).toordinal()`: 0001-01-01 ↦ 1. -/
def toordinal (y m d : Nat) : Nat :=
  daysBeforeYear y + daysBeforeMonth y m + d

/-- Python's `date.weekday()` on an ordinal: Monday = 0 … Sunday = 6. -/
def pyWeekday (ord : Nat) : Nat :=
  (ord + 6) % 7

/-- Locate the month and day given a year and a 0-based day-of-year,
scanning months with explicit fuel (11 steps reach December). -/
def findMDAux (y : Nat) : Nat → Nat → Nat → Nat × Nat
  | 0, m, rem => (m, rem + 1)
  | fuel + 1, m, rem =>
    if rem < daysInMonth y m then (m, rem + 1)
    else findMDAux y fuel (m + 1) (rem - daysInMonth y m)

/-- Inverse of `toordinal` (CPython `_ord2ymd`): ordinal ↦ (year, month, day). -/
def ord2ymd (n0 : Nat) : Nat × Nat × Nat :=
  let n := n0 - 1
  let n400 := n / 146097
  let n := n % 146097
  let n100 := n / 36524
  let n := n % 36524
  let n4 := n / 1461
  let n := n % 1461
  let n1 := n / 365
  let n := n % 365
  let year := n400 * 400 + n100 * 100 + n4 * 4 + n1 + 1
  if n1 = 4 ∨ n100 = 4 then (year - 1, 12, 31)
  else
    let md := findMDAux year 11 1 n
    (year, md.1, md.2)

/-- Zero-pad a number to two digits, as `strftime` does for `%m` and `%d`. -/
def pad2 (n : Nat) : String :=
  if n < 10 then "0" ++ toString n else toString n

/-- Zero-pad a number to four digits, as `strftime` does for `%Y`. -/
def pad4 (n : Nat) : String :=
  if n < 10 then "000" ++ toString n
  else if n < 100 then "00" ++ toString n
  else if n < 1000 then "0" ++ toString n
  else toString n

/-- `strftime("%m/%d/%Y")` on a civil date. -/
def fmtMDY (y m d : Nat) : String :=
  pad2 m ++ "/" ++ pad2 d ++ "/" ++ pad4 y

/-- `strftime("%m/%d/%Y")` on an ordinal date. -/
def fmtOrd (n : Nat) : String :=
  let ymd := ord2ymd n
  fmtMDY ymd.1 ymd.2.1 ymd.2.2

/-- Ordinal of the start date chosen by `calculate_date_range`:
`today - timedelta(days=7)` on Mondays, else `today - timedelta(days=1)`. -/
def startOrd (today : Nat) : Nat :=
  if pyWeekday today == 0 then today - 7 else today - 1

/-- Ordinal of the end date chosen by `calculate_date_range`: always
`today - timedelta(days=1)`. -/
def endOrd (today : Nat) : Nat :=
  today - 1

/-- `calculate_date_range` (src/attendance_export.py:159–188): given the
current date (as its ordinal), return `(start_date, end_date)` as
`"%m/%d/%Y"` strings; Monday pulls the previous 7 days, every other
weekday only the previous day. -/
def calculate_date_range (today : Nat) : String × String :=
  (fmtOrd (startOrd today), fmtOrd (endOrd today))

/-!
Part 2: orchestration model. The external world (Canvas REST endpoints,
ChromeDriver, the Roll Call form) is an oracle `Env`; `runMain` is the
shallow embedding of `main` (src/attendance_export.py:451–527), recording
in `RunResult` the externally observable behaviour of one run: exit code,
how many times each external call was made, whether a browser was opened
and navigated, what was typed into the form, and whether the `finally`
cleanup block executed.

Python exception semantics preserved by the embedding:
`sys.exit(1)` raises `SystemExit`, which is a `BaseException`, so it is
caught neither by `except requests.exceptions.RequestException` nor by
`except Exception`; it propagates through `main`'s `finally` block (which
still runs) and terminates the process with status 1, skipping the final
status block. `KeyboardInterrupt` is likewise a `BaseException`: it
escapes the `except Exception` handlers of the helpers and is caught by
`main`'s `except KeyboardInterrupt`.
-/

/-- The static configuration block at the top of the script. -/
structure Config where
  ADMIN_API_TOKEN : String
  USER_ID : String
  BASE_URL : String
  ACCOUNT_ID : String
  REPORT_EMAIL : String
deriving DecidableEq

/-- Outcome of the `requests.post` creating the temporary token:
a network error (`RequestException`), an HTTP response whose JSON carries
optional `visible_token` and `id` fields, a `KeyboardInterrupt` during the
call, or any other exception (e.g. a JSON decode error). -/
inductive CreateOutcome where
  | netErr
  | resp (status : Nat) (visibleToken : Option String) (id : Option Nat)
  | interrupted
  | unexpected
deriving DecidableEq

/-- Outcome of the `requests.get` resolving the sessionless launch URL. -/
inductive LaunchOutcome where
  | netErr
  | resp (status : Nat) (url : Option String)
  | interrupted
  | unexpected
deriving DecidableEq

/-- Outcome of constructing the headless Chrome driver:
success, a `WebDriverException`, an interrupt, or any other exception. -/
inductive ChromeOutcome where
  | ok
  | webDriverErr
  | interrupted
  | unexpected
deriving DecidableEq

/-- Outcome of the browser session driven by
`submit_attendance_report_form`: the form was filled and submitted, an
element/page wait timed out (`TimeoutException`), some other exception was
raised during navigation or field interaction, or a `KeyboardInterrupt`. -/
inductive SubmitOutcome where
  | submitted
  | timedOut
  | errored
  | interrupted
deriving DecidableEq

/-- Outcome of the `requests.delete` removing the temporary token. -/
inductive DeleteOutcome where
  | ok
  | status (code : Nat)
  | netErr
deriving DecidableEq

/-- One run's external world: the current date (as ordinal) and the
responses each external interaction would produce if reached. -/
structure Env where
  today : Nat
  create : CreateOutcome
  launch : LaunchOutcome
  chrome : ChromeOutcome
  submit : SubmitOutcome
  delete : DeleteOutcome
deriving DecidableEq

/-- Python truthiness of an optional string (`None` and `""` are falsy). -/
def pyTruthyStr : Option String → Bool
  | none => false
  | some s => s != ""

/-- Python truthiness of an optional integer (`None` and `0` are falsy). -/
def pyTruthyId : Option Nat → Bool
  | none => false
  | some n => n != 0

/-- Is `needle` a prefix of `hay` (character lists)? -/
def charsPrefix : List Char → List Char → Bool
  | [], _ => true
  | _ :: _, [] => false
  | a :: as, b :: bs => a == b && charsPrefix as bs

/-- Does `needle` occur as a contiguous run inside `hay`? -/
def charsContains (needle : List Char) : List Char → Bool
  | [] => charsPrefix needle []
  | b :: bs => charsPrefix needle (b :: bs) || charsContains needle bs

/-- Python's `"yourschool" in BASE_URL`. -/
def containsYourschool (s : String) : Bool :=
  charsContains "yourschool".toList s.toList

/-- The pre-flight validation of `main` (src/attendance_export.py:466):
`not ADMIN_API_TOKEN or not USER_ID or "yourschool" in BASE_URL`. -/
def configInvalid (cfg : Config) : Bool :=
  cfg.ADMIN_API_TOKEN == "" || cfg.USER_ID == "" || containsYourschool cfg.BASE_URL

/-- How `create_temporary_token` leaves its caller. -/
inductive CreateResult where
  | exitOne
  | interrupt
  | raiseExc
  | ok (token : String) (id : Option Nat)
deriving DecidableEq

/-- `create_temporary_token` (src/attendance_export.py:191–245): on HTTP
200 with a truthy `visible_token` it returns `(token, id)` where `id` is
`token_data.get("id")` (possibly `None`); on a missing/empty token, a
non-200 status, or a `RequestException` it calls `sys.exit(1)`;
a `KeyboardInterrupt` or any other exception propagates. -/
def create_temporary_token : CreateOutcome → CreateResult
  | .netErr => .exitOne
  | .interrupted => .interrupt
  | .unexpected => .raiseExc
  | .resp status tok id =>
    if status == 200 then
      match tok with
      | some t => if t != "" then .ok t id else .exitOne
      | none => .exitOne
    else .exitOne

/-- How `get_sessionless_launch_url` leaves its caller. -/
inductive LaunchResult where
  | ret (url : Option String)
  | interrupt
  | raiseExc
deriving DecidableEq

/-- `get_sessionless_launch_url` (src/attendance_export.py:276–324): on
HTTP 200 with a truthy `url` field it returns the URL; on a missing URL,
a non-200 status, or a `RequestException` it returns `None`;
a `KeyboardInterrupt` or any other exception propagates. -/
def get_sessionless_launch_url : LaunchOutcome → LaunchResult
  | .netErr => .ret none
  | .interrupted => .interrupt
  | .unexpected => .raiseExc
  | .resp status url =>
    if status == 200 then
      match url with
      | some u => if u != "" then .ret (some u) else .ret none
      | none => .ret none
    else .ret none

/-- How `configure_chrome_driver` leaves its caller. -/
inductive ChromeResult where
  | ok
  | exitOne
  | interrupt
  | raiseExc
deriving DecidableEq

/-- `configure_chrome_driver` (src/attendance_export.py:327–372): a
`WebDriverException` is converted to `sys.exit(1)`; interrupts and other
exceptions propagate. -/
def configure_chrome_driver : ChromeOutcome → ChromeResult
  | .ok => .ok
  | .webDriverErr => .exitOne
  | .interrupted => .interrupt
  | .unexpected => .raiseExc

/-- `submit_attendance_report_form` (src/attendance_export.py:375–444):
returns `some true` when the form was submitted, `some false` on a
`TimeoutException` or any other `Exception` (both caught inside the
function), and `none` when a `KeyboardInterrupt` propagates. -/
def submit_attendance_report_form : SubmitOutcome → Option Bool
  | .submitted => some true
  | .timedOut => some false
  | .errored => some false
  | .interrupted => none

/-- `delete_temporary_token` (src/attendance_export.py:248–273): always
returns; reports whether the DELETE succeeded (anything else is only a
logged warning). -/
def delete_temporary_token : DeleteOutcome → Bool
  | .ok => true
  | .status _ => false
  | .netErr => false

/-- What the script typed into the three Roll Call form fields:
start date, end date, recipient email. -/
structure FormFill where
  startDate : String
  endDate : String
  email : String
deriving DecidableEq

/-- Observable trace of the `try` body of `main`. -/
structure Trace where
  createCalls : Nat := 0
  resolveCalls : Nat := 0
  tokenId : Option Nat := none
  browserOpened : Bool := false
  navAttempted : Bool := false
  submitCalls : Nat := 0
  formFill : Option FormFill := none
deriving DecidableEq

/-- How the `try` body of `main` terminates: a `SystemExit` escaping
through `finally`, a caught `KeyboardInterrupt`/`Exception`, or normal
completion with the `success` flag. -/
inductive BodyResult where
  | sysExit
  | caught
  | done (success : Bool)
deriving DecidableEq

/-- The `try` body of `main` (src/attendance_export.py:479–503):
step 1 create token, step 2 resolve launch URL, step 3 compute dates,
step 4 open browser and submit the form. -/
def tryBody (cfg : Config) (env : Env) : BodyResult × Trace :=
  match create_temporary_token env.create with
  | .exitOne => (.sysExit, { createCalls := 1 })
  | .interrupt => (.caught, { createCalls := 1 })
  | .raiseExc => (.caught, { createCalls := 1 })
  | .ok _token id =>
    match get_sessionless_launch_url env.launch with
    | .interrupt => (.caught, { createCalls := 1, resolveCalls := 1, tokenId := id })
    | .raiseExc => (.caught, { createCalls := 1, resolveCalls := 1, tokenId := id })
    | .ret none => (.sysExit, { createCalls := 1, resolveCalls := 1, tokenId := id })
    | .ret (some _url) =>
      let dates := calculate_date_range env.today
      match configure_chrome_driver env.chrome with
      | .exitOne => (.sysExit, { createCalls := 1, resolveCalls := 1, tokenId := id })
      | .interrupt => (.caught, { createCalls := 1, resolveCalls := 1, tokenId := id })
      | .raiseExc => (.caught, { createCalls := 1, resolveCalls := 1, tokenId := id })
      | .ok =>
        match submit_attendance_report_form env.submit with
        | none =>
          (.caught,
            { createCalls := 1, resolveCalls := 1, tokenId := id,
              browserOpened := true, navAttempted := true, submitCalls := 1 })
        | some ok =>
          (.done ok,
            { createCalls := 1, resolveCalls := 1, tokenId := id,
              browserOpened := true, navAttempted := true, submitCalls := 1,
              formFill :=
                if ok then some ⟨dates.1, dates.2, cfg.REPORT_EMAIL⟩ else none })

/-- Externally observable behaviour of one run of `main`. -/
structure RunResult where
  exitCode : Nat
  createCalls : Nat
  resolveCalls : Nat
  browserOpened : Bool
  navAttempted : Bool
  submitCalls : Nat
  formFill : Option FormFill
  deleteCalls : Nat
  deleteOk : Option Bool
  cleanupReached : Bool
  confirmed : Bool
deriving DecidableEq

/-- `main` (src/attendance_export.py:451–527): config validation, the
`try` body, the `finally` cleanup (browser teardown, then token deletion
guarded by `if temp_token_id:`), and the final status block translating
`success` into exit 0/1 — except that a `SystemExit` raised inside the
`try` body exits with status 1 directly after `finally`. -/
def runMain (cfg : Config) (env : Env) : RunResult :=
  if configInvalid cfg then
    { exitCode := 1, createCalls := 0, resolveCalls := 0,
      browserOpened := false, navAttempted := false, submitCalls := 0,
      formFill := none, deleteCalls := 0, deleteOk := none,
      cleanupReached := false, confirmed := false }
  else
    let body := tryBody cfg env
    let t := body.2
    let deleted := if pyTruthyId t.tokenId then some (delete_temporary_token env.delete) else none
    let confirmed := body.1 == .done true
    let exitCode :=
      match body.1 with
      | .sysExit => 1
      | .caught => 1
      | .done ok => if ok then 0 else 1
    { exitCode := exitCode, createCalls := t.createCalls,
      resolveCalls := t.resolveCalls, browserOpened := t.browserOpened,
      navAttempted := t.navAttempted, submitCalls := t.submitCalls,
      formFill := t.formFill,
      deleteCalls := if pyTruthyId t.tokenId then 1 else 0,
      deleteOk := deleted, cleanupReached := true, confirmed := confirmed }

/-!
Part 3: predicates naming the claim conditions, and structural lemmas
about `tryBody` and `runMain`.
-/

/-- Credential acquisition succeeded as claim C1 words it: the identity
endpoint returned success (HTTP 200) and the response carried a truthy
secret (`visible_token`) field. -/
def createSucceeded : CreateOutcome → Bool
  | .resp s tok _ => s == 200 && pyTruthyStr tok
  | _ => false

/-- Credential creation failed as claim C4 words it: a network error,
a non-success status, or a success response omitting (or with an empty)
secret field. -/
def createFailed : CreateOutcome → Bool
  | .netErr => true
  | .resp s tok _ => !(s == 200 && pyTruthyStr tok)
  | _ => false

/-- Launch resolution failed as claim C5 words it: a non-success status
or a success response missing (or with an empty) the URL field. -/
def launchRespFailed : LaunchOutcome → Bool
  | .resp s url => !(s == 200 && pyTruthyStr url)
  | _ => false

/-- A credential was acquired during the run: configuration passed the
pre-flight check (so the creation call was made) and the creation call
returned a usable secret. -/
def credentialAcquired (cfg : Config) (env : Env) : Bool :=
  !configInvalid cfg && createSucceeded env.create

lemma create_exitOne_of_failed (o : CreateOutcome) (h : createFailed o = true) :
    create_temporary_token o = .exitOne := by
  cases o with
  | netErr => rfl
  | interrupted => simp [createFailed] at h
  | unexpected => simp [createFailed] at h
  | resp s tok id =>
    simp only [createFailed, Bool.not_eq_true'] at h
    simp only [create_temporary_token]
    cases tok with
    | none => split <;> rfl
    | some t =>
      by_cases hs : (s == 200) = true
      · simp [hs, pyTruthyStr] at h
        simp [hs, h]
      · simp [Bool.not_eq_true] at hs
        simp [hs]

lemma create_ok_of_succeeded (s : Nat) (t : String) (id : Option Nat)
    (hs : s = 200) (ht : t ≠ "") :
    create_temporary_token (.resp s (some t) id) = .ok t id := by
  subst hs
  simp [create_temporary_token, ht]

lemma create_not_ok_of_not_succeeded (o : CreateOutcome)
    (h : createSucceeded o = false) :
    create_temporary_token o = .exitOne ∨ create_temporary_token o = .interrupt ∨
      create_temporary_token o = .raiseExc := by
  cases o with
  | netErr => exact Or.inl rfl
  | interrupted => exact Or.inr (Or.inl rfl)
  | unexpected => exact Or.inr (Or.inr rfl)
  | resp s tok id =>
    refine Or.inl (create_exitOne_of_failed _ ?_)
    simp only [createSucceeded] at h
    simp [createFailed, h]

lemma launch_ret_none_of_failed (o : LaunchOutcome) (h : launchRespFailed o = true) :
    get_sessionless_launch_url o = .ret none := by
  cases o with
  | netErr => rfl
  | interrupted => simp [launchRespFailed] at h
  | unexpected => simp [launchRespFailed] at h
  | resp s url =>
    simp only [launchRespFailed, Bool.not_eq_true'] at h
    simp only [get_sessionless_launch_url]
    cases url with
    | none => split <;> rfl
    | some u =>
      by_cases hs : (s == 200) = true
      · simp [hs, pyTruthyStr] at h
        simp [hs, h]
      · simp [Bool.not_eq_true] at hs
        simp [hs]

lemma launch_ret_some (s : Nat) (u : String) (hs : s = 200) (hu : u ≠ "") :
    get_sessionless_launch_url (.resp s (some u)) = .ret (some u) := by
  subst hs
  simp [get_sessionless_launch_url, hu]

lemma tryBody_createCalls (cfg : Config) (env : Env) :
    (tryBody cfg env).2.createCalls = 1 := by
  unfold tryBody
  cases hc : create_temporary_token env.create with
  | exitOne => rfl
  | interrupt => rfl
  | raiseExc => rfl
  | ok t id =>
    cases hl : get_sessionless_launch_url env.launch with
    | interrupt => rfl
    | raiseExc => rfl
    | ret u =>
      cases u with
      | none => rfl
      | some u =>
        cases hch : configure_chrome_driver env.chrome with
        | exitOne => rfl
        | interrupt => rfl
        | raiseExc => rfl
        | ok =>
          cases hs : submit_attendance_report_form env.submit with
          | none => rfl
          | some b => rfl

lemma tryBody_tokenId (cfg : Config) (env : Env) (t : String) (id : Option Nat)
    (h : create_temporary_token env.create = .ok t id) :
    (tryBody cfg env).2.tokenId = id := by
  unfold tryBody
  rw [h]
  cases hl : get_sessionless_launch_url env.launch with
  | interrupt => rfl
  | raiseExc => rfl
  | ret u =>
    cases u with
    | none => rfl
    | some u =>
      cases hch : configure_chrome_driver env.chrome with
      | exitOne => rfl
      | interrupt => rfl
      | raiseExc => rfl
      | ok =>
        cases hs : submit_attendance_report_form env.submit with
        | none => rfl
        | some b => rfl

lemma tryBody_of_create_exitOne (cfg : Config) (env : Env)
    (h : create_temporary_token env.create = .exitOne) :
    tryBody cfg env = (.sysExit, { createCalls := 1 }) := by
  unfold tryBody
  rw [h]

lemma tryBody_of_launch_none (cfg : Config) (env : Env) (t : String) (id : Option Nat)
    (h : create_temporary_token env.create = .ok t id)
    (hl : get_sessionless_launch_url env.launch = .ret none) :
    tryBody cfg env
      = (.sysExit, { createCalls := 1, resolveCalls := 1, tokenId := id }) := by
  unfold tryBody
  rw [h, hl]

lemma tryBody_of_submit (cfg : Config) (env : Env) (t u : String) (id : Option Nat)
    (b : Bool)
    (h : create_temporary_token env.create = .ok t id)
    (hl : get_sessionless_launch_url env.launch = .ret (some u))
    (hch : configure_chrome_driver env.chrome = .ok)
    (hs : submit_attendance_report_form env.submit = some b) :
    tryBody cfg env
      = (.done b,
          { createCalls := 1, resolveCalls := 1, tokenId := id,
            browserOpened := true, navAttempted := true, submitCalls := 1,
            formFill :=
              if b then
                some ⟨fmtOrd (startOrd env.today), fmtOrd (endOrd env.today),
                  cfg.REPORT_EMAIL⟩
              else none }) := by
  unfold tryBody
  rw [h, hl, hch, hs]
  rfl

lemma configInvalid_false_iff (cfg : Config) :
    configInvalid cfg = false
      ↔ (¬cfg.ADMIN_API_TOKEN = "" ∧ ¬cfg.USER_ID = ""
          ∧ containsYourschool cfg.BASE_URL = false) := by
  simp [configInvalid, and_assoc]

lemma runMain_delete_irrelevant (cfg : Config) (env : Env) (d : DeleteOutcome) :
    (runMain cfg { env with delete := d }).exitCode = (runMain cfg env).exitCode := by
  have ht : tryBody cfg { env with delete := d } = tryBody cfg env := by
    cases env
    rfl
  by_cases h : configInvalid cfg = true
  · simp [runMain, h]
  · simp only [Bool.not_eq_true] at h
    simp [runMain, h, ht]

lemma tryBody_of_create_interrupt (cfg : Config) (env : Env)
    (h : create_temporary_token env.create = .interrupt) :
    tryBody cfg env = (.caught, { createCalls := 1 }) := by
  unfold tryBody
  rw [h]

lemma tryBody_of_create_raise (cfg : Config) (env : Env)
    (h : create_temporary_token env.create = .raiseExc) :
    tryBody cfg env = (.caught, { createCalls := 1 }) := by
  unfold tryBody
  rw [h]

/-!
Part 4: concrete fixtures used by counterexamples and witnesses.
-/

/-- A completed configuration (passes the pre-flight check). -/
def cfgGood : Config :=
  ⟨"admintoken", "12345", "https://school.example/api/v1", "1", "admin@school.example"⟩

/-- The configuration as shipped in the script: empty token and user id,
placeholder base URL (fails the pre-flight check). -/
def cfgBad : Config :=
  ⟨"", "", "https://yourschool.instructure.com/api/v1", "1",
    "centralized-canvas-admin@yourschool.edu"⟩

/-- A configuration passing the pre-flight check but with an empty
recipient email and an empty account id. -/
def cfgNoEmail : Config :=
  ⟨"admintoken", "12345", "https://school.example/api/v1", "", ""⟩

/-- Token creation succeeds (200, secret present) but the JSON carries no
`id` field; everything afterwards succeeds. -/
def envC1x : Env :=
  ⟨toordinal 2025 12 17, .resp 200 (some "tmptok") none,
    .resp 200 (some "https://rollcall.example/launch"), .ok, .submitted, .ok⟩

/-- Token creation fully succeeds; launch resolution then returns 404. -/
def envC1w : Env :=
  ⟨toordinal 2025 12 17, .resp 200 (some "tmptok") (some 7),
    .resp 404 none, .ok, .submitted, .ok⟩

/-- A fully successful run environment. -/
def envC3x : Env :=
  ⟨toordinal 2025 12 17, .resp 200 (some "tmptok") (some 7),
    .resp 200 (some "https://rollcall.example/launch"), .ok, .submitted, .ok⟩

/-- Another fully successful run environment. -/
def envC3w : Env :=
  ⟨toordinal 2025 12 15, .resp 200 (some "tmptok") (some 7),
    .resp 200 (some "https://rollcall.example/launch"), .ok, .submitted, .ok⟩

/-- Token creation returns HTTP 401. -/
def envC4w : Env :=
  ⟨toordinal 2025 12 17, .resp 401 none none,
    .resp 200 (some "https://rollcall.example/launch"), .ok, .submitted, .ok⟩

/-- Token creation succeeds without an `id` field; launch resolution
returns 200 but the JSON carries no `url` field. -/
def envC5x : Env :=
  ⟨toordinal 2025 12 17, .resp 200 (some "tmptok") none,
    .resp 200 none, .ok, .submitted, .ok⟩

/-- Token creation fully succeeds; launch resolution returns 500. -/
def envC5w : Env :=
  ⟨toordinal 2025 12 17, .resp 200 (some "tmptok") (some 7),
    .resp 500 none, .ok, .submitted, .ok⟩

/-- Token creation succeeds without an `id` field; the form's start-date
field wait then times out. -/
def envC6x : Env :=
  ⟨toordinal 2025 12 17, .resp 200 (some "tmptok") none,
    .resp 200 (some "https://rollcall.example/launch"), .ok, .timedOut, .ok⟩

/-- Token creation fully succeeds; the form's start-date field wait
times out. -/
def envC6w : Env :=
  ⟨toordinal 2025 12 17, .resp 200 (some "tmptok") (some 7),
    .resp 200 (some "https://rollcall.example/launch"), .ok, .timedOut, .ok⟩

/-- Configuration is valid but token creation hits a network error. -/
def envC9w : Env :=
  ⟨toordinal 2025 12 17, .netErr,
    .resp 200 (some "https://rollcall.example/launch"), .ok, .submitted, .ok⟩

/-- A fully successful run environment (Wednesday, 2025-12-17). -/
def envC10x : Env :=
  ⟨toordinal 2025 12 17, .resp 200 (some "tmptok") (some 7),
    .resp 200 (some "https://rollcall.example/launch"), .ok, .submitted, .ok⟩

/-- A fully successful run environment for the C10 witness. -/
def envC10w : Env :=
  ⟨toordinal 2025 12 15, .resp 200 (some "tmptok") (some 7),
    .resp 200 (some "https://rollcall.example/w"), .ok, .submitted, .ok⟩

/-!
Part 5: the claims.
-/

/-- Claim C1 counterexample: a run in which credential acquisition
succeeded in the claim's sense (HTTP 200, secret field present) but the
response carried no `id` field; `temp_token_id` stays `None`, so the
`if temp_token_id:` guard skips `delete_temporary_token` and the release
is invoked zero times, not exactly once. -/
theorem claim_C1_counterexample :
    configInvalid cfgGood = false
    ∧ createSucceeded envC1x.create = true
    ∧ (runMain cfgGood envC1x).deleteCalls = 0 := by
  decide

/-- Claim C1 (amended): for every run in which the pre-flight check passed
and credential creation returned HTTP 200 with a nonempty secret field and
a nonzero token id, `delete_temporary_token` is invoked exactly once
before process exit, regardless of which later step failed. -/
theorem claim_C1_amended (cfg : Config) (env : Env) (t : String) (i : Nat)
    (hc : configInvalid cfg = false)
    (h : env.create = .resp 200 (some t) (some i)) (ht : t ≠ "") (hi : i ≠ 0) :
    (runMain cfg env).deleteCalls = 1
    ∧ (runMain cfg env).cleanupReached = true := by
  have hok : create_temporary_token env.create = .ok t (some i) := by
    rw [h]
    exact create_ok_of_succeeded 200 t (some i) rfl ht
  have htok := tryBody_tokenId cfg env t (some i) hok
  constructor
  · simp [runMain, hc, htok, pyTruthyId, hi]
  · simp [runMain, hc]

/-- Claim C1 witness: a concrete run (valid config, acquisition fully
succeeded, launch resolution then failed with 404) in which the release
is invoked exactly once. -/
theorem claim_C1_witness :
    (runMain cfgGood envC1w).deleteCalls = 1
    ∧ (runMain cfgGood envC1w).cleanupReached = true :=
  claim_C1_amended cfgGood envC1w "tmptok" 7 (by decide) rfl (by decide) (by decide)

/-- Claim C2: on Mondays `calculate_date_range` returns the dates 7 days
and 1 day before the run date, on every other weekday twice the date 1 day
before, and concretely the Monday run 2025-12-15 yields
2025-12-08 … 2025-12-14 and the Wednesday run 2025-12-17 yields
2025-12-16 … 2025-12-16 (the returned strings read back as those
calendar dates). -/
theorem claim_C2 :
    (∀ today : Nat, pyWeekday today = 0 →
      calculate_date_range today = (fmtOrd (today - 7), fmtOrd (today - 1)))
    ∧ (∀ today : Nat, pyWeekday today ≠ 0 →
      calculate_date_range today = (fmtOrd (today - 1), fmtOrd (today - 1)))
    ∧ pyWeekday (toordinal 2025 12 15) = 0
    ∧ calculate_date_range (toordinal 2025 12 15) = ("12/08/2025", "12/14/2025")
    ∧ ord2ymd (toordinal 2025 12 15 - 7) = (2025, 12, 8)
    ∧ ord2ymd (toordinal 2025 12 15 - 1) = (2025, 12, 14)
    ∧ pyWeekday (toordinal 2025 12 17) = 2
    ∧ calculate_date_range (toordinal 2025 12 17) = ("12/16/2025", "12/16/2025")
    ∧ ord2ymd (toordinal 2025 12 17 - 1) = (2025, 12, 16) := by
  refine ⟨?_, ?_, by decide, by decide, by decide, by decide, by decide,
    by decide, by decide⟩
  · intro today h
    simp [calculate_date_range, startOrd, endOrd, h]
  · intro today h
    have hb : (pyWeekday today == 0) = false := by
      simpa using h
    simp [calculate_date_range, startOrd, endOrd, hb]

/-- Claim C2 witness: the two universally quantified parts applied at the
concrete Monday and Wednesday ordinals. -/
theorem claim_C2_witness :
    calculate_date_range (toordinal 2025 12 15)
      = (fmtOrd (toordinal 2025 12 15 - 7), fmtOrd (toordinal 2025 12 15 - 1))
    ∧ calculate_date_range (toordinal 2025 12 17)
      = (fmtOrd (toordinal 2025 12 17 - 1), fmtOrd (toordinal 2025 12 17 - 1)) :=
  ⟨claim_C2.1 _ (by decide), claim_C2.2.1 _ (by decide)⟩

/-- Claim C3 counterexample: on the invalid-configuration path `main`
calls `sys.exit(1)` at line 472, before the `try`/`finally` block, so the
cleanup phase is not reached on that exit path, contradicting the claim's
"the cleanup phase is reached on every exit path". -/
theorem claim_C3_counterexample :
    (runMain cfgBad envC3x).cleanupReached = false
    ∧ (runMain cfgBad envC3x).exitCode = 1 := by
  decide

/-- Claim C3 (amended): every run terminates with exit code 0 or 1;
the exit code is 0 exactly when the form automation reached its
submitted-true terminal state; and on every exit path that passes
configuration validation the cleanup phase is reached before the
process ends. -/
theorem claim_C3_amended (cfg : Config) (env : Env) :
    ((runMain cfg env).exitCode = 0 ∨ (runMain cfg env).exitCode = 1)
    ∧ ((runMain cfg env).exitCode = 0 ↔ (runMain cfg env).confirmed = true)
    ∧ (configInvalid cfg = false → (runMain cfg env).cleanupReached = true) := by
  by_cases h : configInvalid cfg = true
  · simp [runMain, h]
  · simp only [Bool.not_eq_true] at h
    cases hb : (tryBody cfg env).1 with
    | sysExit => simp [runMain, h, hb]
    | caught => simp [runMain, h, hb]
    | done ok => cases ok <;> simp [runMain, h, hb]

/-- Claim C3 witness: on a concrete valid-configuration run the cleanup
phase is reached. -/
theorem claim_C3_witness :
    (runMain cfgGood envC3w).cleanupReached = true :=
  (claim_C3_amended cfgGood envC3w).2.2 (by decide)

/-- Claim C4: if credential creation returns a non-success status, hits a
network error, or returns success without the secret field, the run exits
with status 1, no launch resolution or browser interaction is attempted,
and credential deletion is not attempted; the cleanup phase still runs. -/
theorem claim_C4 (cfg : Config) (env : Env)
    (hc : configInvalid cfg = false) (hf : createFailed env.create = true) :
    (runMain cfg env).exitCode = 1
    ∧ (runMain cfg env).resolveCalls = 0
    ∧ (runMain cfg env).browserOpened = false
    ∧ (runMain cfg env).navAttempted = false
    ∧ (runMain cfg env).deleteCalls = 0
    ∧ (runMain cfg env).cleanupReached = true := by
  have h1 := tryBody_of_create_exitOne cfg env (create_exitOne_of_failed _ hf)
  simp [runMain, hc, h1, pyTruthyId]

/-- Claim C4 witness: the HTTP 401 scenario from the spec. -/
theorem claim_C4_witness :
    (runMain cfgGood envC4w).exitCode = 1
    ∧ (runMain cfgGood envC4w).resolveCalls = 0
    ∧ (runMain cfgGood envC4w).browserOpened = false
    ∧ (runMain cfgGood envC4w).navAttempted = false
    ∧ (runMain cfgGood envC4w).deleteCalls = 0
    ∧ (runMain cfgGood envC4w).cleanupReached = true :=
  claim_C4 cfgGood envC4w (by decide) (by decide)

/-- Claim C5 counterexample: launch resolution returns 200 without the
`url` field, so no browser opens and the run exits 1 — but because the
creation response carried no `id` field the acquired token is not
released, contradicting the claim's "the acquired token is released". -/
theorem claim_C5_counterexample :
    configInvalid cfgGood = false
    ∧ createSucceeded envC5x.create = true
    ∧ launchRespFailed envC5x.launch = true
    ∧ (runMain cfgGood envC5x).browserOpened = false
    ∧ (runMain cfgGood envC5x).exitCode = 1
    ∧ (runMain cfgGood envC5x).deleteCalls = 0 := by
  decide

/-- Claim C5 (amended): if the launch-resolution call returns a
non-success status or a success response missing the URL field, no browser
session is opened and no navigation occurs, the run exits with status 1,
and — provided the creation response carried a nonzero token id — the
acquired token is released in the cleanup phase. -/
theorem claim_C5_amended (cfg : Config) (env : Env) (t : String) (i : Nat)
    (hc : configInvalid cfg = false)
    (h : env.create = .resp 200 (some t) (some i)) (ht : t ≠ "") (hi : i ≠ 0)
    (hl : launchRespFailed env.launch = true) :
    (runMain cfg env).browserOpened = false
    ∧ (runMain cfg env).navAttempted = false
    ∧ (runMain cfg env).exitCode = 1
    ∧ (runMain cfg env).deleteCalls = 1
    ∧ (runMain cfg env).cleanupReached = true := by
  have hok : create_temporary_token env.create = .ok t (some i) := by
    rw [h]
    exact create_ok_of_succeeded 200 t (some i) rfl ht
  have h2 := tryBody_of_launch_none cfg env t (some i) hok
    (launch_ret_none_of_failed _ hl)
  simp [runMain, hc, h2, pyTruthyId, hi]

/-- Claim C5 witness: launch resolution returns 500 on a run whose
creation response carried a token id. -/
theorem claim_C5_witness :
    (runMain cfgGood envC5w).browserOpened = false
    ∧ (runMain cfgGood envC5w).navAttempted = false
    ∧ (runMain cfgGood envC5w).exitCode = 1
    ∧ (runMain cfgGood envC5w).deleteCalls = 1
    ∧ (runMain cfgGood envC5w).cleanupReached = true :=
  claim_C5_amended cfgGood envC5w "tmptok" 7 (by decide) rfl (by decide)
    (by decide) (by decide)

/-- Claim C6 counterexample: the start-date field wait times out and the
run exits 1 without retrying — but because the creation response carried
no `id` field, credential deletion is not attempted, contradicting the
claim's "credential deletion is still attempted". -/
theorem claim_C6_counterexample :
    configInvalid cfgGood = false
    ∧ createSucceeded envC6x.create = true
    ∧ envC6x.submit = .timedOut
    ∧ (runMain cfgGood envC6x).exitCode = 1
    ∧ (runMain cfgGood envC6x).deleteCalls = 0 := by
  decide

/-- Claim C6 (amended): if the wait for the report form's start-date field
times out, `submit_attendance_report_form` returns failure without
submitting, the run exits with status 1, the submission is attempted only
once in the run, and — provided the creation response carried a nonzero
token id — credential deletion is still attempted. -/
theorem claim_C6_amended (cfg : Config) (env : Env) (t u : String) (i : Nat)
    (hc : configInvalid cfg = false)
    (h : env.create = .resp 200 (some t) (some i)) (ht : t ≠ "") (hi : i ≠ 0)
    (hl : env.launch = .resp 200 (some u)) (hu : u ≠ "")
    (hch : env.chrome = .ok) (hs : env.submit = .timedOut) :
    submit_attendance_report_form env.submit = some false
    ∧ (runMain cfg env).exitCode = 1
    ∧ (runMain cfg env).confirmed = false
    ∧ (runMain cfg env).submitCalls = 1
    ∧ (runMain cfg env).deleteCalls = 1
    ∧ (runMain cfg env).cleanupReached = true := by
  have hok : create_temporary_token env.create = .ok t (some i) := by
    rw [h]
    exact create_ok_of_succeeded 200 t (some i) rfl ht
  have hlr : get_sessionless_launch_url env.launch = .ret (some u) := by
    rw [hl]
    exact launch_ret_some 200 u rfl hu
  have hchr : configure_chrome_driver env.chrome = .ok := by
    rw [hch]
    rfl
  have hsr : submit_attendance_report_form env.submit = some false := by
    rw [hs]
    rfl
  have h3 := tryBody_of_submit cfg env t u (some i) false hok hlr hchr hsr
  refine ⟨hsr, ?_⟩
  simp [runMain, hc, h3, pyTruthyId, hi]

/-- Claim C6 witness: the field-wait-timeout scenario on a run whose
creation response carried a token id. -/
theorem claim_C6_witness :
    submit_attendance_report_form envC6w.submit = some false
    ∧ (runMain cfgGood envC6w).exitCode = 1
    ∧ (runMain cfgGood envC6w).confirmed = false
    ∧ (runMain cfgGood envC6w).submitCalls = 1
    ∧ (runMain cfgGood envC6w).deleteCalls = 1
    ∧ (runMain cfgGood envC6w).cleanupReached = true :=
  claim_C6_amended cfgGood envC6w "tmptok" "https://rollcall.example/launch" 7
    (by decide) rfl (by decide) (by decide) rfl (by decide) rfl rfl

/-- Claim C7: for every representable run date the computed range
satisfies start ≤ end and end is strictly before the run date (end is the
day before), and `calculate_date_range` returns exactly those two dates
formatted. -/
theorem claim_C7 (today : Nat) (h : 1 ≤ today) :
    startOrd today ≤ endOrd today
    ∧ endOrd today < today
    ∧ endOrd today = today - 1
    ∧ calculate_date_range today = (fmtOrd (startOrd today), fmtOrd (endOrd today)) := by
  refine ⟨?_, ?_, rfl, rfl⟩
  · unfold startOrd endOrd
    split
    · omega
    · omega
  · unfold endOrd
    omega

/-- Claim C7 witness: the invariant at the concrete Monday ordinal. -/
theorem claim_C7_witness :
    startOrd (toordinal 2025 12 15) ≤ endOrd (toordinal 2025 12 15)
    ∧ endOrd (toordinal 2025 12 15) < toordinal 2025 12 15
    ∧ endOrd (toordinal 2025 12 15) = toordinal 2025 12 15 - 1
    ∧ calculate_date_range (toordinal 2025 12 15)
      = (fmtOrd (startOrd (toordinal 2025 12 15)),
          fmtOrd (endOrd (toordinal 2025 12 15))) :=
  claim_C7 (toordinal 2025 12 15) (by decide)

/-- Claim C8: if the pre-flight configuration check fails (empty admin
token, empty user id, or a base URL still containing "yourschool"), the
run exits with status 1 having made no external call: no token creation,
no launch resolution, no browser, no deletion. -/
theorem claim_C8 (cfg : Config) (env : Env) (h : configInvalid cfg = true) :
    (runMain cfg env).exitCode = 1
    ∧ (runMain cfg env).createCalls = 0
    ∧ (runMain cfg env).resolveCalls = 0
    ∧ (runMain cfg env).browserOpened = false
    ∧ (runMain cfg env).navAttempted = false
    ∧ (runMain cfg env).deleteCalls = 0 := by
  simp [runMain, h]

/-- Claim C8 witness: the configuration as shipped (empty credentials,
placeholder URL) fails pre-flight with no external calls. -/
theorem claim_C8_witness :
    (runMain cfgBad envC10x).exitCode = 1
    ∧ (runMain cfgBad envC10x).createCalls = 0
    ∧ (runMain cfgBad envC10x).resolveCalls = 0
    ∧ (runMain cfgBad envC10x).browserOpened = false
    ∧ (runMain cfgBad envC10x).navAttempted = false
    ∧ (runMain cfgBad envC10x).deleteCalls = 0 :=
  claim_C8 cfgBad envC10x (by decide)

/-- Claim C9: in every run in which no credential was acquired (pre-flight
failed, or token creation did not return a usable secret), the cleanup
performs no external deletion call, and the deletion outcome offered by
the environment has no effect on the run's exit code. -/
theorem claim_C9 (cfg : Config) (env : Env) (d : DeleteOutcome)
    (h : credentialAcquired cfg env = false) :
    (runMain cfg env).deleteCalls = 0
    ∧ (runMain cfg env).deleteOk = none
    ∧ (runMain cfg { env with delete := d }).exitCode = (runMain cfg env).exitCode := by
  refine ⟨?_, ?_, runMain_delete_irrelevant cfg env d⟩ <;>
    · by_cases hc : configInvalid cfg = true
      · simp [runMain, hc]
      · simp only [Bool.not_eq_true] at hc
        have hcs : createSucceeded env.create = false := by
          simpa [credentialAcquired, hc] using h
        rcases create_not_ok_of_not_succeeded _ hcs with h1 | h1 | h1
        · have h2 := tryBody_of_create_exitOne cfg env h1
          simp [runMain, hc, h2, pyTruthyId]
        · have h2 := tryBody_of_create_interrupt cfg env h1
          simp [runMain, hc, h2, pyTruthyId]
        · have h2 := tryBody_of_create_raise cfg env h1
          simp [runMain, hc, h2, pyTruthyId]

/-- Claim C9 witness: a run with a network error at token creation makes
no deletion call and its exit code ignores the deletion outcome. -/
theorem claim_C9_witness :
    (runMain cfgGood envC9w).deleteCalls = 0
    ∧ (runMain cfgGood envC9w).deleteOk = none
    ∧ (runMain cfgGood { envC9w with delete := .netErr }).exitCode
      = (runMain cfgGood envC9w).exitCode :=
  claim_C9 cfgGood envC9w .netErr (by decide)

/-- Claim C10: the pre-flight validation checks exactly that
`ADMIN_API_TOKEN` is nonempty, `USER_ID` is nonempty and `BASE_URL` does
not contain "yourschool" — the creation call is made iff those three
conditions hold, whatever `REPORT_EMAIL` or `ACCOUNT_ID` are — and on a
submitted run the form's email field receives `REPORT_EMAIL` unvalidated;
concretely, with an empty `REPORT_EMAIL` (and empty `ACCOUNT_ID`) the run
proceeds, types the empty recipient into the form, and exits 0. -/
theorem claim_C10 :
    (∀ (cfg : Config) (env : Env),
      (runMain cfg env).createCalls = 1
        ↔ (¬cfg.ADMIN_API_TOKEN = "" ∧ ¬cfg.USER_ID = ""
            ∧ containsYourschool cfg.BASE_URL = false))
    ∧ (∀ (cfg : Config) (env : Env) (t u : String) (i : Option Nat),
        configInvalid cfg = false →
        env.create = .resp 200 (some t) i → t ≠ "" →
        env.launch = .resp 200 (some u) → u ≠ "" →
        env.chrome = .ok → env.submit = .submitted →
        (runMain cfg env).formFill
          = some ⟨fmtOrd (startOrd env.today), fmtOrd (endOrd env.today),
              cfg.REPORT_EMAIL⟩)
    ∧ (runMain cfgNoEmail envC10x).formFill
        = some ⟨"12/16/2025", "12/16/2025", ""⟩
    ∧ (runMain cfgNoEmail envC10x).exitCode = 0 := by
  refine ⟨?_, ?_, by decide, by decide⟩
  · intro cfg env
    rw [← configInvalid_false_iff]
    by_cases h : configInvalid cfg = true
    · simp [runMain, h]
    · simp only [Bool.not_eq_true] at h
      simp [runMain, h, tryBody_createCalls]
  · intro cfg env t u i hc h ht hl hu hch hs
    have hok : create_temporary_token env.create = .ok t i := by
      rw [h]
      exact create_ok_of_succeeded 200 t i rfl ht
    have hlr : get_sessionless_launch_url env.launch = .ret (some u) := by
      rw [hl]
      exact launch_ret_some 200 u rfl hu
    have hchr : configure_chrome_driver env.chrome = .ok := by
      rw [hch]
      rfl
    have hsr : submit_attendance_report_form env.submit = some true := by
      rw [hs]
      rfl
    have h3 := tryBody_of_submit cfg env t u i true hok hlr hchr hsr
    simp [runMain, hc, h3]

/-- Claim C10 witness: the universally quantified form-fill part applied
at a concrete Monday run. -/
theorem claim_C10_witness :
    (runMain cfgGood envC10w).formFill
      = some ⟨fmtOrd (startOrd envC10w.today), fmtOrd (endOrd envC10w.today),
          cfgGood.REPORT_EMAIL⟩ :=
  claim_C10.2.1 cfgGood envC10w "tmptok" "https://rollcall.example/w" (some 7)
    (by decide) rfl (by decide) rfl (by decide) rfl rfl
